import Mathlib

/-!
Shallow embedding of the combo-configurator core of the vibedrinks storefront.

The repository contains two observed variants of the combo modal:
* variant A (single ice field, 5-can energy pack): `destilados`, `energeticos2L`,
  `energeticosCans`, `gelos`, `getGeloQuantity`, `calculateTotalA`, `handleAddComboA`;
* variant B (four independent ice slots, 4-can energy pack): `destiladosByCategory`,
  `energeticosCansB`, `gelosAvailable`, `getAvailableGelosForSlot`, `handleSelectGelo`,
  `calculateTotalB`, `handleAddComboB`;
plus the special-drinks add-to-cart handler `handleAddToCart`.

Monetary values are modelled as rationals (the source reads decimal amounts with
`Number(...)`); stock counts as integers; JS string operations
(`toLowerCase().includes(...)`) as executable functions on Lean strings.
-/

namespace VibeDrinks

/-- JS `hay.includes(needle)` on exploded strings: `needle` occurs as a
contiguous substring of `hay`. -/
def containsSub (hay needle : List Char) : Bool :=
  match hay with
  | [] => needle.isEmpty
  | _ :: t => needle.isPrefixOf hay || containsSub t needle

/-- JS `s.toLowerCase()` modelled characterwise on the exploded string. -/
def toLowerChars (s : String) : List Char :=
  s.toList.map Char.toLower

/-- JS `hay.toLowerCase().includes(needle)`. -/
def lowerIncludes (hay needle : String) : Bool :=
  containsSub (toLowerChars hay) needle.toList

/-- A catalog product (`Product` from the shared schema, the fields the core reads). -/
structure Product where
  id : String
  name : String
  salePrice : ℚ
  categoryId : String
  isActive : Bool
  stock : Int
  comboEligible : Bool
  isPrepared : Bool
deriving DecidableEq, Repr

/-- A catalog category (the fields the core reads). -/
structure Category where
  id : String
  name : String
  isActive : Bool
deriving DecidableEq, Repr

/-! ### Eligibility classifier, variant A -/

/-- `destiladoKeywords` from the variant-A modal. -/
def destiladoKeywords : List String :=
  ["gin", "whisky", "whiskey", "cachaça", "cachaca", "vodka", "sake", "saque", "rum"]

/-- Ids of categories whose lowercased name contains a spirit keyword (variant A). -/
def destiladosCategoryIds (categories : List Category) : List String :=
  (categories.filter (fun c =>
    destiladoKeywords.any (fun keyword => lowerIncludes c.name keyword))).map (fun c => c.id)

/-- Variant-A spirit candidate list. -/
def destilados (products : List Product) (categories : List Category) : List Product :=
  products.filter (fun p =>
    p.comboEligible && p.isActive && decide (p.stock > 0) &&
      (destiladosCategoryIds categories).contains p.categoryId)

/-- `energeticoKeywords` (identical in both variants). -/
def energeticoKeywords : List String :=
  ["energetico", "energético", "redbull", "red bull", "monster", "tnt", "burn",
   "fusion", "energy"]

/-- `isEnergetico(name)` (identical in both variants). -/
def isEnergetico (name : String) : Bool :=
  energeticoKeywords.any (fun keyword => lowerIncludes name keyword)

/-- `energeticos2L` candidate list (the filter is identical in both variants). -/
def energeticos2L (products : List Product) : List Product :=
  products.filter (fun p =>
    p.comboEligible && p.isActive && decide (p.stock > 0) &&
      isEnergetico p.name && lowerIncludes p.name "2l")

/-- Variant-A `energeticosCans` candidate list (stock gate `>= 5`). -/
def energeticosCans (products : List Product) : List Product :=
  products.filter (fun p =>
    p.comboEligible && p.isActive && decide (p.stock ≥ 5) &&
      isEnergetico p.name && !(lowerIncludes p.name "2l"))

/-- `isLargeIceBag(name)` from variant A. -/
def isLargeIceBag (name : String) : Bool :=
  lowerIncludes name "kg" || lowerIncludes name "saco" || lowerIncludes name "grande"

/-- Variant-A ice candidate list `gelos`, with its size-dependent stock gate. -/
def gelos (products : List Product) : List Product :=
  products.filter (fun p =>
    p.comboEligible && p.isActive && lowerIncludes p.name "gelo" &&
      (if isLargeIceBag p.name then decide (p.stock ≥ 1) else decide (p.stock ≥ 5)))

/-- Variant-A `EnergeticoOption`: `'2L' | '5cans'`. -/
inductive EnergeticoOptionA
  | twoL
  | fiveCans
deriving DecidableEq, Repr

/-- Variant-A `energeticoQuantity`: `energeticoOption === '2L' ? 1 : 5`. -/
def energeticoQuantityA : EnergeticoOptionA → Nat
  | .twoL => 1
  | .fiveCans => 5

/-- Variant-A `getGeloQuantity(gelo)`: `if (!gelo) return 5; return isLargeIceBag(gelo.name) ? 1 : 5`. -/
def getGeloQuantity : Option Product → Nat
  | none => 5
  | some gelo => if isLargeIceBag gelo.name then 1 else 5

/-- Variant-A selection state (`selectedDestilado`, `selectedEnergetico`,
`energeticoOption`, `selectedGelo`). -/
structure ComboStateA where
  selectedDestilado : Option Product
  selectedEnergetico : Option Product
  energeticoOption : EnergeticoOptionA
  selectedGelo : Option Product
deriving DecidableEq, Repr

/-- Variant-A `resetSelections()` result, which is also the initial state. -/
def resetSelectionsA : ComboStateA :=
  { selectedDestilado := none
    selectedEnergetico := none
    energeticoOption := EnergeticoOptionA.twoL
    selectedGelo := none }

/-- The pack-option button click in variant A: `setEnergeticoOption(o); setSelectedEnergetico(null)`. -/
def selectEnergeticoOptionA (s : ComboStateA) (o : EnergeticoOptionA) : ComboStateA :=
  { s with energeticoOption := o, selectedEnergetico := none }

/-- The `{original, discounted}` pair returned by `calculateTotal`. -/
structure Totals where
  original : ℚ
  discounted : ℚ
deriving DecidableEq, Repr

/-- Variant-A `calculateTotal()`. -/
def calculateTotalA (s : ComboStateA) : Totals :=
  match s.selectedDestilado, s.selectedEnergetico, s.selectedGelo with
  | some selectedDestilado, some selectedEnergetico, some selectedGelo =>
    let destiladoPrice := selectedDestilado.salePrice
    let energeticoPrice :=
      selectedEnergetico.salePrice * (energeticoQuantityA s.energeticoOption : ℚ)
    let geloPrice := selectedGelo.salePrice * (getGeloQuantity (some selectedGelo) : ℚ)
    let original := destiladoPrice + energeticoPrice + geloPrice
    let discounted := original * (95 / 100)
    { original := original, discounted := discounted }
  | _, _, _ => { original := 0, discounted := 0 }

/-- Variant-A completeness: the guard `!selectedDestilado || !selectedEnergetico ||
!selectedGelo` fails. -/
def isCompleteA (s : ComboStateA) : Bool :=
  s.selectedDestilado.isSome && s.selectedEnergetico.isSome && s.selectedGelo.isSome

/-- The two toast messages the combo modal can emit. -/
inductive ToastMsg
  | selecioneTodosOsItens
  | comboAdicionado
deriving DecidableEq, Repr

/-- Variant-A `ComboItem` record handed to `addCombo`. -/
structure ComboRecordA where
  id : String
  destilado : Product
  energetico : Product
  energeticoQuantity : Nat
  gelo : Product
  geloQuantity : Nat
  discountPercent : Nat
  originalTotal : ℚ
  discountedTotal : ℚ
deriving DecidableEq, Repr

/-- Variant-A `handleAddCombo()`, `now` standing for `Date.now()`. Returns the
state afterwards, the record handed to the cart (if any), the toast emitted,
and whether the modal was closed. -/
def handleAddComboA (s : ComboStateA) (now : Nat) :
    ComboStateA × Option ComboRecordA × ToastMsg × Bool :=
  match s.selectedDestilado, s.selectedEnergetico, s.selectedGelo with
  | some selectedDestilado, some selectedEnergetico, some selectedGelo =>
    let comboId := "combo-" ++ toString now
    let totals := calculateTotalA s
    let record : ComboRecordA :=
      { id := comboId
        destilado := selectedDestilado
        energetico := selectedEnergetico
        energeticoQuantity := energeticoQuantityA s.energeticoOption
        gelo := selectedGelo
        geloQuantity := getGeloQuantity (some selectedGelo)
        discountPercent := 5
        originalTotal := totals.original
        discountedTotal := totals.discounted }
    (resetSelectionsA, some record, ToastMsg.comboAdicionado, true)
  | _, _, _ => (s, none, ToastMsg.selecioneTodosOsItens, false)

/-! ### Variant B (category-driven spirits, four ice slots) -/

/-- `COMBO_CATEGORIES` allow-list from variant B. -/
def COMBO_CATEGORIES : List String := ["Gin", "Vodka", "Cachaça", "Whisky"]

/-- `ICE_COUNT` from variant B. -/
def ICE_COUNT : Nat := 4

/-- `CAN_COUNT` from variant B. -/
def CAN_COUNT : Nat := 4

/-- Variant-B `EnergeticoOption`: `'2L' | '4cans'`. -/
inductive EnergeticoOptionB
  | twoL
  | fourCans
deriving DecidableEq, Repr

/-- Variant-B `comboCategories`: categories whose name equals (case-insensitively)
one of the allow-list entries. -/
def comboCategories (categories : List Category) : List Category :=
  categories.filter (fun c =>
    COMBO_CATEGORIES.any (fun name => toLowerChars c.name == toLowerChars name))

/-- Variant-B `destiladosByCategory`, by cases on `selectedCategory` and then on
the category lookup. -/
def destiladosByCategory (products : List Product) (categories : List Category) :
    Option String → List Product
  | none => []
  | some selCat =>
    match categories.find? (fun c => c.id == selCat) with
    | none => []
    | some category =>
      products.filter (fun p =>
        p.comboEligible && p.isActive && decide (p.stock > 0) &&
          p.categoryId == category.id)

/-- Variant-B `energeticosCans` candidate list (stock gate `>= CAN_COUNT`). -/
def energeticosCansB (products : List Product) : List Product :=
  products.filter (fun p =>
    p.comboEligible && p.isActive && decide (p.stock ≥ (CAN_COUNT : Int)) &&
      isEnergetico p.name && !(lowerIncludes p.name "2l"))

/-- Variant-B `gelosAvailable` candidate list. -/
def gelosAvailable (products : List Product) : List Product :=
  products.filter (fun p =>
    p.comboEligible && p.isActive && decide (p.stock ≥ 1) &&
      (lowerIncludes p.name "gelo" &&
        !(lowerIncludes p.name "kg") &&
        !(lowerIncludes p.name "saco") &&
        !(lowerIncludes p.name "triturado") &&
        !(lowerIncludes p.name "premium")))

/-- Variant-B `getAvailableGelosForSlot(slotIndex)`: the available ice list minus
the products held by the *other* slots. -/
def getAvailableGelosForSlot (avail : List Product)
    (selectedGelos : List (Option Product)) (slotIndex : Nat) : List Product :=
  let selectedIds :=
    ((selectedGelos.enum.filter (fun gi => gi.2.isSome && gi.1 != slotIndex)).filterMap
      (fun gi => gi.2)).map (fun g => g.id)
  avail.filter (fun g => !(selectedIds.contains g.id))

/-- Variant-B `handleSelectGelo(index, product)` acting on the slot array. -/
def handleSelectGelo (selectedGelos : List (Option Product)) (index : Nat)
    (product : Option Product) : List (Option Product) :=
  selectedGelos.set index product

/-- Variant-B selection state. -/
structure ComboStateB where
  selectedCategory : Option String
  selectedDestilado : Option Product
  selectedGelos : List (Option Product)
  selectedEnergetico : Option Product
  energeticoOption : EnergeticoOptionB
deriving DecidableEq, Repr

/-- Variant-B `resetSelections()` result, which is also the initial state
(`Array(ICE_COUNT).fill(null)` for the slots). -/
def resetSelectionsB : ComboStateB :=
  { selectedCategory := none
    selectedDestilado := none
    selectedGelos := List.replicate ICE_COUNT none
    selectedEnergetico := none
    energeticoOption := EnergeticoOptionB.twoL }

/-- The pack-option button click in variant B: `setEnergeticoOption(o); setSelectedEnergetico(null)`. -/
def selectEnergeticoOptionB (s : ComboStateB) (o : EnergeticoOptionB) : ComboStateB :=
  { s with energeticoOption := o, selectedEnergetico := none }

/-- Variant-B `energeticoQuantity`: `energeticoOption === '2L' ? 1 : CAN_COUNT`. -/
def energeticoQuantityB : EnergeticoOptionB → Nat
  | .twoL => 1
  | .fourCans => CAN_COUNT

/-- Variant-B `calculateTotal()`: zero sentinel unless the spirit and energy drink
are set and all `ICE_COUNT` slots are filled. -/
def calculateTotalB (s : ComboStateB) : Totals :=
  let validGelos := s.selectedGelos.filterMap id
  match s.selectedDestilado, s.selectedEnergetico with
  | some selectedDestilado, some selectedEnergetico =>
    if validGelos.length == ICE_COUNT then
      let destiladoPrice := selectedDestilado.salePrice
      let energeticoPrice :=
        selectedEnergetico.salePrice * (energeticoQuantityB s.energeticoOption : ℚ)
      let geloPrice := validGelos.foldl (fun sum g => sum + g.salePrice) 0
      let original := destiladoPrice + energeticoPrice + geloPrice
      let discounted := original * (95 / 100)
      { original := original, discounted := discounted }
    else { original := 0, discounted := 0 }
  | _, _ => { original := 0, discounted := 0 }

/-- Variant-B `isComplete` (source counts the slots with `filter(g => g !== null)`). -/
def isCompleteB (s : ComboStateB) : Bool :=
  s.selectedDestilado.isSome && s.selectedEnergetico.isSome &&
    ((s.selectedGelos.filter (fun g => g.isSome)).length == ICE_COUNT)

/-- `ComboGelo` from the shared schema: one resolved ice line item. -/
structure ComboGelo where
  product : Product
  quantity : Nat
deriving DecidableEq, Repr

/-- Variant-B combo record handed to `addCombo`. -/
structure ComboRecordB where
  id : String
  destilado : Product
  energetico : Product
  energeticoQuantity : Nat
  gelos : List ComboGelo
  discountPercent : Nat
  originalTotal : ℚ
  discountedTotal : ℚ
deriving DecidableEq, Repr

/-- Variant-B `handleAddCombo()`, `now` standing for `Date.now()`. -/
def handleAddComboB (s : ComboStateB) (now : Nat) :
    ComboStateB × Option ComboRecordB × ToastMsg × Bool :=
  let validGelos := s.selectedGelos.filterMap id
  match s.selectedDestilado, s.selectedEnergetico with
  | some selectedDestilado, some selectedEnergetico =>
    if validGelos.length == ICE_COUNT then
      let comboId := "combo-" ++ toString now
      let geloItems := validGelos.map (fun g => ComboGelo.mk g 1)
      let totals := calculateTotalB s
      let record : ComboRecordB :=
        { id := comboId
          destilado := selectedDestilado
          energetico := selectedEnergetico
          energeticoQuantity := energeticoQuantityB s.energeticoOption
          gelos := geloItems
          discountPercent := 5
          originalTotal := totals.original
          discountedTotal := totals.discounted }
      (resetSelectionsB, some record, ToastMsg.comboAdicionado, true)
    else (s, none, ToastMsg.selecioneTodosOsItens, false)
  | _, _ => (s, none, ToastMsg.selecioneTodosOsItens, false)

/-! ### Ice-slot invariant machinery (variant B) -/

/-- No two filled slots hold the same product identifier. -/
def noDupFilled (slots : List (Option Product)) : Prop :=
  ∀ (i j : Nat) (p q : Product), i ≠ j →
    slots[i]? = some (some p) → slots[j]? = some (some q) → p.id ≠ q.id

/-- One user interaction with the ice slots: clearing any slot, or selecting into
a slot a product drawn from the candidate list offered for that slot. -/
inductive GeloStep (avail : List Product) :
    List (Option Product) → List (Option Product) → Prop
  | clear (slots : List (Option Product)) (i : Nat) :
      GeloStep avail slots (handleSelectGelo slots i none)
  | select (slots : List (Option Product)) (i : Nat) (p : Product)
      (hp : p ∈ getAvailableGelosForSlot avail slots i) :
      GeloStep avail slots (handleSelectGelo slots i (some p))

/-! ### Special-drinks add-to-cart path -/

/-- A cart line as read by the special-drinks modal. -/
structure CartItem where
  productId : String
  quantity : Nat
deriving DecidableEq, Repr

/-- The two toasts the special-drinks add-to-cart path can emit. -/
inductive CartToast
  | estoqueInsuficiente
  | adicionadoAoCarrinho
deriving DecidableEq, Repr

/-- `getCartQuantity(productId)`: `items.find(...)?.quantity ?? 0`. -/
def getCartQuantity (items : List CartItem) (productId : String) : Nat :=
  match items.find? (fun i => i.productId == productId) with
  | some item => item.quantity
  | none => 0

/-- `handleAddToCart(product)` from the special-drinks modal: returns the item
handed to `addItem` (if any) and the toast emitted. -/
def handleAddToCart (items : List CartItem) (product : Product) :
    Option Product × CartToast :=
  if !product.isPrepared then
    let cartItem := items.find? (fun i => i.productId == product.id)
    let currentQty : Int :=
      match cartItem with
      | some item => (item.quantity : Int)
      | none => 0
    if decide (product.stock ≤ 0) || decide (currentQty ≥ product.stock) then
      (none, CartToast.estoqueInsuficiente)
    else
      (some product, CartToast.adicionadoAoCarrinho)
  else
    (some product, CartToast.adicionadoAoCarrinho)

/-! ### Concrete catalog values used to instantiate the theorems -/

/-- A concrete spirit product. -/
def wGin : Product :=
  { id := "p-gin", name := "Gin Tanqueray", salePrice := 50, categoryId := "cat-gin"
    isActive := true, stock := 10, comboEligible := true, isPrepared := false }

/-- A concrete spirit category. -/
def wCatGin : Category := { id := "cat-gin", name := "Gin", isActive := true }

/-- A concrete can-pack energy drink. -/
def wEnergetico : Product :=
  { id := "p-energy", name := "Energetico Monster Lata", salePrice := 6
    categoryId := "cat-nrg", isActive := true, stock := 10, comboEligible := true
    isPrepared := false }

/-- A concrete large-bottle energy drink. -/
def wEnergetico2L : Product :=
  { id := "p-energy2l", name := "Energetico Fusion 2L", salePrice := 12
    categoryId := "cat-nrg", isActive := true, stock := 10, comboEligible := true
    isPrepared := false }

/-- Four concrete standard ice products with distinct identifiers. -/
def wGelo1 : Product :=
  { id := "p-gelo1", name := "Gelo Coco", salePrice := 3, categoryId := "cat-gelo"
    isActive := true, stock := 10, comboEligible := true, isPrepared := false }

/-- Second concrete ice product. -/
def wGelo2 : Product :=
  { id := "p-gelo2", name := "Gelo Limao", salePrice := 3, categoryId := "cat-gelo"
    isActive := true, stock := 10, comboEligible := true, isPrepared := false }

/-- Third concrete ice product. -/
def wGelo3 : Product :=
  { id := "p-gelo3", name := "Gelo Morango", salePrice := 3, categoryId := "cat-gelo"
    isActive := true, stock := 10, comboEligible := true, isPrepared := false }

/-- Fourth concrete ice product. -/
def wGelo4 : Product :=
  { id := "p-gelo4", name := "Gelo Maracuja", salePrice := 3, categoryId := "cat-gelo"
    isActive := true, stock := 10, comboEligible := true, isPrepared := false }

/-- A crushed-ice product (non-combo ice grade). -/
def wGeloTriturado : Product :=
  { id := "p-gelot", name := "Gelo Triturado", salePrice := 3, categoryId := "cat-gelo"
    isActive := true, stock := 10, comboEligible := true, isPrepared := false }

/-- The complete variant-B selection of the pricing scenario: spirit at 50.00,
4-can pack energy drink at 6.00, four ice units at 3.00 each. -/
def scenarioStateB : ComboStateB :=
  { selectedCategory := some "cat-gin"
    selectedDestilado := some wGin
    selectedGelos := [some wGelo1, some wGelo2, some wGelo3, some wGelo4]
    selectedEnergetico := some wEnergetico
    energeticoOption := EnergeticoOptionB.fourCans }

/-- A zero-priced spirit. -/
def zDestilado : Product :=
  { id := "z-dest", name := "Vodka Brinde", salePrice := 0, categoryId := "cat-vodka"
    isActive := true, stock := 5, comboEligible := true, isPrepared := false }

/-- A zero-priced energy drink. -/
def zEnergetico : Product :=
  { id := "z-nrg", name := "Energetico Brinde 2L", salePrice := 0
    categoryId := "cat-nrg", isActive := true, stock := 5, comboEligible := true
    isPrepared := false }

/-- A zero-priced ice product. -/
def zGelo : Product :=
  { id := "z-gelo", name := "Gelo Brinde", salePrice := 0, categoryId := "cat-gelo"
    isActive := true, stock := 5, comboEligible := true, isPrepared := false }

/-- A complete variant-A selection whose products are all zero-priced. -/
def zeroStateA : ComboStateA :=
  { selectedDestilado := some zDestilado
    selectedEnergetico := some zEnergetico
    energeticoOption := EnergeticoOptionA.twoL
    selectedGelo := some zGelo }

/-! ### Shared helper lemmas -/

/-- Counting the filled slots with `filter (isSome)` agrees with counting the
extracted products (`filterMap id`), bridging the two countings the source uses. -/
theorem length_filter_isSome_eq {α : Type} (l : List (Option α)) :
    (l.filter (fun g => g.isSome)).length = (l.filterMap id).length := by
  induction l with
  | nil => rfl
  | cons hd tl ih => cases hd <;> simp [ih]

/-- A left fold adding sale prices stays nonnegative when the start value and all
prices are nonnegative. -/
theorem foldl_add_salePrice_nonneg (l : List Product) (init : ℚ) (h0 : 0 ≤ init)
    (h : ∀ p ∈ l, 0 ≤ p.salePrice) :
    0 ≤ l.foldl (fun sum g => sum + g.salePrice) init := by
  induction l generalizing init with
  | nil => simpa using h0
  | cons hd tl ih =>
    simp only [List.foldl_cons]
    exact ih _ (add_nonneg h0 (h hd (List.mem_cons_self hd tl)))
      (fun p hp => h p (List.mem_cons_of_mem _ hp))

/-- The quantity read inline by `handleAddToCart` agrees with `getCartQuantity`. -/
theorem handleAddToCart_eq (items : List CartItem) (product : Product) :
    handleAddToCart items product =
      if product.isPrepared = false ∧
          (product.stock ≤ 0 ∨ product.stock ≤ (getCartQuantity items product.id : Int))
        then (none, CartToast.estoqueInsuficiente)
        else (some product, CartToast.adicionadoAoCarrinho) := by
  unfold handleAddToCart getCartQuantity
  cases hp : product.isPrepared <;>
    cases hfind : items.find? (fun i => i.productId == product.id) <;> simp

/-! ### Claim theorems -/

/-- C1: selecting any pack option sets the option and clears the chosen
energy-drink product in the same transition, in both observed variants,
whatever (possibly non-null) energy drink was selected before. -/
theorem selectPackOption_clears_energetico (sA : ComboStateA) (oA : EnergeticoOptionA)
    (sB : ComboStateB) (oB : EnergeticoOptionB) :
    (selectEnergeticoOptionA sA oA).selectedEnergetico = none ∧
    (selectEnergeticoOptionA sA oA).energeticoOption = oA ∧
    (selectEnergeticoOptionB sB oB).selectedEnergetico = none ∧
    (selectEnergeticoOptionB sB oB).energeticoOption = oB :=
  ⟨rfl, rfl, rfl, rfl⟩

/-- C3: for every complete selection, in either variant, the discounted total is
exactly `original * 95/100`; and in the concrete scenario (spirit 50.00, 4-can
pack energy drink at 6.00, four ice units at 3.00 each) the totals are 86.00 and
81.70. -/
theorem discount_law :
    (∀ s : ComboStateA, isCompleteA s = true →
      (calculateTotalA s).discounted = (calculateTotalA s).original * (95 / 100)) ∧
    (∀ s : ComboStateB, isCompleteB s = true →
      (calculateTotalB s).discounted = (calculateTotalB s).original * (95 / 100)) ∧
    (calculateTotalB scenarioStateB).original = 86 ∧
    (calculateTotalB scenarioStateB).discounted = 817 / 10 := by
  refine ⟨?_, ?_, ?_, ?_⟩
  · intro s _
    rcases s with ⟨d, e, o, g⟩
    rcases d with _ | d <;> rcases e with _ | e <;> rcases g with _ | g <;>
      simp [calculateTotalA]
  · intro s _
    rcases s with ⟨c, d, gs, e, o⟩
    rcases d with _ | d
    · simp [calculateTotalB]
    rcases e with _ | e
    · simp [calculateTotalB]
    simp only [calculateTotalB]
    split <;> simp
  · norm_num [calculateTotalB, scenarioStateB, wGin, wEnergetico, wGelo1, wGelo2,
      wGelo3, wGelo4, energeticoQuantityB, CAN_COUNT, ICE_COUNT,
      List.filterMap_cons, List.foldl_cons, List.foldl_nil, id_eq]
  · norm_num [calculateTotalB, scenarioStateB, wGin, wEnergetico, wGelo1, wGelo2,
      wGelo3, wGelo4, energeticoQuantityB, CAN_COUNT, ICE_COUNT,
      List.filterMap_cons, List.foldl_cons, List.foldl_nil, id_eq]

/-- C3 witness: the discount law applied to the concrete scenario selection. -/
theorem discount_law_witness :
    (calculateTotalB scenarioStateB).discounted =
      (calculateTotalB scenarioStateB).original * (95 / 100) :=
  discount_law.2.1 scenarioStateB (by decide)

/-- C4 counterexample: a complete variant-A selection of zero-priced products
prices to original = discounted = 0, so pricing is not zero *only* for
incomplete selections. -/
theorem pricing_zero_counterexample :
    isCompleteA zeroStateA = true ∧
    (calculateTotalA zeroStateA).original = 0 ∧
    (calculateTotalA zeroStateA).discounted = 0 := by
  refine ⟨rfl, ?_, ?_⟩ <;>
    norm_num [calculateTotalA, zeroStateA, zDestilado, zEnergetico, zGelo,
      energeticoQuantityA, getGeloQuantity]

/-- C4 (amended): an incomplete selection prices to (0, 0) in both variants;
conversely a complete selection all of whose selected products have positive
sale price has nonzero totals — zero pricing characterizes incompleteness only
under positive prices. -/
theorem pricing_zero_iff_incomplete_amended :
    (∀ s : ComboStateA, isCompleteA s = false →
      (calculateTotalA s).original = 0 ∧ (calculateTotalA s).discounted = 0) ∧
    (∀ s : ComboStateB, isCompleteB s = false →
      (calculateTotalB s).original = 0 ∧ (calculateTotalB s).discounted = 0) ∧
    (∀ s : ComboStateA, isCompleteA s = true →
      (∀ p : Product, s.selectedDestilado = some p → 0 < p.salePrice) →
      (∀ p : Product, s.selectedEnergetico = some p → 0 < p.salePrice) →
      (∀ p : Product, s.selectedGelo = some p → 0 < p.salePrice) →
      (calculateTotalA s).original ≠ 0 ∧ (calculateTotalA s).discounted ≠ 0) ∧
    (∀ s : ComboStateB, isCompleteB s = true →
      (∀ p : Product, s.selectedDestilado = some p → 0 < p.salePrice) →
      (∀ p : Product, s.selectedEnergetico = some p → 0 < p.salePrice) →
      (∀ p : Product, p ∈ s.selectedGelos.filterMap id → 0 < p.salePrice) →
      (calculateTotalB s).original ≠ 0 ∧ (calculateTotalB s).discounted ≠ 0) := by
  refine ⟨?_, ?_, ?_, ?_⟩
  · intro s h
    rcases s with ⟨d, e, o, g⟩
    rcases d with _ | d <;> rcases e with _ | e <;> rcases g with _ | g <;>
      simp_all [calculateTotalA, isCompleteA]
  · intro s h
    rcases s with ⟨c, d, gs, e, o⟩
    rcases d with _ | d <;> rcases e with _ | e <;>
      simp_all [calculateTotalB, isCompleteB, length_filter_isSome_eq]
  · intro s h hd he hg
    rcases s with ⟨d, e, o, g⟩
    rcases d with _ | d
    · simp [isCompleteA] at h
    rcases e with _ | e
    · simp [isCompleteA] at h
    rcases g with _ | g
    · simp [isCompleteA] at h
    have hdp := hd d rfl
    have hep := he e rfl
    have hgp := hg g rfl
    have hq : (0 : ℚ) < (energeticoQuantityA o : ℚ) := by
      cases o <;> norm_num [energeticoQuantityA]
    have hgq : (0 : ℚ) < (getGeloQuantity (some g) : ℚ) := by
      by_cases hbag : isLargeIceBag g.name <;> simp [getGeloQuantity, hbag]
    have hpos : 0 < d.salePrice + e.salePrice * (energeticoQuantityA o : ℚ) +
        g.salePrice * (getGeloQuantity (some g) : ℚ) := by
      have h1 := mul_pos hep hq
      have h2 := mul_pos hgp hgq
      linarith
    have hcalc : calculateTotalA ⟨some d, some e, o, some g⟩ =
        { original := d.salePrice + e.salePrice * (energeticoQuantityA o : ℚ) +
            g.salePrice * (getGeloQuantity (some g) : ℚ)
          discounted := (d.salePrice + e.salePrice * (energeticoQuantityA o : ℚ) +
            g.salePrice * (getGeloQuantity (some g) : ℚ)) * (95 / 100) } := rfl
    rw [hcalc]
    exact ⟨hpos.ne', mul_ne_zero hpos.ne' (by norm_num)⟩
  · intro s h hd he hg
    rcases s with ⟨c, d, gs, e, o⟩
    rcases d with _ | d
    · simp [isCompleteB] at h
    rcases e with _ | e
    · simp [isCompleteB] at h
    have hlen : (gs.filter (fun g => g.isSome)).length = ICE_COUNT := by
      simpa [isCompleteB] using h
    have hbeq : ((gs.filterMap id).length == ICE_COUNT) = true := by
      rw [← length_filter_isSome_eq, hlen]
      simp
    have hdp := hd d rfl
    have hep := he e rfl
    have hq : (0 : ℚ) < (energeticoQuantityB o : ℚ) := by
      cases o <;> norm_num [energeticoQuantityB, CAN_COUNT]
    have hsum : 0 ≤ (gs.filterMap id).foldl (fun sum g => sum + g.salePrice) 0 :=
      foldl_add_salePrice_nonneg _ 0 le_rfl (fun p hp => (hg p hp).le)
    have hpos : 0 < d.salePrice + e.salePrice * (energeticoQuantityB o : ℚ) +
        (gs.filterMap id).foldl (fun sum g => sum + g.salePrice) 0 := by
      have h1 := mul_pos hep hq
      linarith
    have hcalc : calculateTotalB ⟨c, some d, gs, some e, o⟩ =
        { original := d.salePrice + e.salePrice * (energeticoQuantityB o : ℚ) +
            (gs.filterMap id).foldl (fun sum g => sum + g.salePrice) 0
          discounted := (d.salePrice + e.salePrice * (energeticoQuantityB o : ℚ) +
            (gs.filterMap id).foldl (fun sum g => sum + g.salePrice) 0) * (95 / 100) } := by
      simp only [calculateTotalB, hbeq, if_true]
    rw [hcalc]
    exact ⟨hpos.ne', mul_ne_zero hpos.ne' (by norm_num)⟩

/-- C4 witness: the amended statement applied to a concrete incomplete selection
and to the concrete all-positive scenario selection. -/
theorem pricing_zero_iff_incomplete_amended_witness :
    ((calculateTotalA resetSelectionsA).original = 0 ∧
      (calculateTotalA resetSelectionsA).discounted = 0) ∧
    ((calculateTotalB scenarioStateB).original ≠ 0 ∧
      (calculateTotalB scenarioStateB).discounted ≠ 0) :=
  ⟨pricing_zero_iff_incomplete_amended.1 resetSelectionsA (by decide),
   pricing_zero_iff_incomplete_amended.2.2.2 scenarioStateB (by decide)
     (by intro p hp; cases hp; decide)
     (by intro p hp; cases hp; decide)
     (by intro p hp; fin_cases hp <;> decide)⟩

/-- C7 counterexample: "Gelo Coco" is not a large ice bag, yet `getGeloQuantity`
returns 5 for it — not 1 as the claim states. -/
theorem getGeloQuantity_counterexample :
    isLargeIceBag wGelo1.name = false ∧ getGeloQuantity (some wGelo1) = 5 ∧
      getGeloQuantity (some wGelo1) ≠ 1 :=
  ⟨by decide, by decide, by decide⟩

/-- C7 (amended): in the single-ice-field variant the resolved ice quantity is 5
for a standard ice unit (and when nothing is selected) and 1 for a large-bag
variant: `getGeloQuantity` returns 1 exactly on large ice bags, else 5. -/
theorem getGeloQuantity_amended (p : Product) :
    getGeloQuantity (some p) = (if isLargeIceBag p.name then 1 else 5) ∧
    getGeloQuantity none = 5 :=
  ⟨rfl, rfl⟩

/-- C9: invoking add-combo on an incomplete selection produces no combo record,
hands nothing to the cart, emits the rejection toast, keeps the modal open and
leaves the selection state unchanged, in both variants. -/
theorem addCombo_incomplete_rejected :
    (∀ (s : ComboStateA) (now : Nat), isCompleteA s = false →
      handleAddComboA s now = (s, none, ToastMsg.selecioneTodosOsItens, false)) ∧
    (∀ (s : ComboStateB) (now : Nat), isCompleteB s = false →
      handleAddComboB s now = (s, none, ToastMsg.selecioneTodosOsItens, false)) := by
  constructor
  · intro s now h
    rcases s with ⟨d, e, o, g⟩
    rcases d with _ | d <;> rcases e with _ | e <;> rcases g with _ | g <;>
      simp_all [handleAddComboA, isCompleteA]
  · intro s now h
    rcases s with ⟨c, d, gs, e, o⟩
    rcases d with _ | d <;> rcases e with _ | e <;>
      simp_all [handleAddComboB, isCompleteB, length_filter_isSome_eq]

/-- C9 witness: the empty selection is rejected unchanged in both variants. -/
theorem addCombo_incomplete_rejected_witness :
    handleAddComboA resetSelectionsA 0 =
      (resetSelectionsA, none, ToastMsg.selecioneTodosOsItens, false) ∧
    handleAddComboB resetSelectionsB 0 =
      (resetSelectionsB, none, ToastMsg.selecioneTodosOsItens, false) :=
  ⟨addCombo_incomplete_rejected.1 resetSelectionsA 0 (by decide),
   addCombo_incomplete_rejected.2 resetSelectionsB 0 (by decide)⟩

/-- C10: in the special-drinks add-to-cart path, a prepared product is always
accepted regardless of stock or cart contents; a non-prepared product is
rejected — stock toast, nothing handed to the cart — exactly when its stock is
≤ 0 or the quantity already in the cart has reached its stock. -/
theorem special_drinks_add_to_cart (items : List CartItem) (product : Product) :
    (product.isPrepared = true →
      handleAddToCart items product = (some product, CartToast.adicionadoAoCarrinho)) ∧
    (product.isPrepared = false →
      (handleAddToCart items product = (none, CartToast.estoqueInsuficiente) ↔
        (product.stock ≤ 0 ∨ product.stock ≤ (getCartQuantity items product.id : Int))) ∧
      (¬(product.stock ≤ 0 ∨ product.stock ≤ (getCartQuantity items product.id : Int)) →
        handleAddToCart items product = (some product, CartToast.adicionadoAoCarrinho))) := by
  rw [handleAddToCart_eq]
  constructor
  · intro h
    simp [h]
  · intro h
    constructor
    · constructor
      · intro hr
        by_contra hc
        rw [if_neg (fun hand => hc hand.2)] at hr
        simp at hr
      · intro hc
        rw [if_pos ⟨h, hc⟩]
    · intro hc
      rw [if_neg (fun hand => hc hand.2)]

/-- C10 witness: a non-prepared product with stock 0 is rejected on an empty cart. -/
theorem special_drinks_add_to_cart_witness :
    handleAddToCart []
        { id := "z", name := "Caipirinha", salePrice := 10, categoryId := "c"
          isActive := true, stock := 0, comboEligible := false, isPrepared := false } =
      (none, CartToast.estoqueInsuficiente) :=
  ((special_drinks_add_to_cart []
      { id := "z", name := "Caipirinha", salePrice := 10, categoryId := "c"
        isActive := true, stock := 0, comboEligible := false
        isPrepared := false }).2 rfl).1.mpr (Or.inl le_rfl)

/-- `List.contains` agrees with membership (strings with lawful `==`). -/
theorem contains_eq_true_iff {l : List String} {a : String} :
    l.contains a = true ↔ a ∈ l :=
  List.elem_iff

/-- A category id is in `destiladosCategoryIds` iff some listed category carries
it and its name matches a spirit keyword. -/
theorem mem_destiladosCategoryIds (categories : List Category) (cid : String) :
    (destiladosCategoryIds categories).contains cid = true ↔
      ∃ c ∈ categories,
        destiladoKeywords.any (fun keyword => lowerIncludes c.name keyword) = true ∧
        c.id = cid := by
  constructor
  · intro h
    obtain ⟨c, hc, hid⟩ := List.mem_map.mp (contains_eq_true_iff.mp h)
    obtain ⟨hcmem, hpred⟩ := List.mem_filter.mp hc
    exact ⟨c, hcmem, hpred, hid⟩
  · rintro ⟨c, hcmem, hpred, hid⟩
    exact contains_eq_true_iff.mpr
      (List.mem_map.mpr ⟨c, List.mem_filter.mpr ⟨hcmem, hpred⟩, hid⟩)

/-- C5: a product appears in the spirit-candidate list iff it is combo-eligible,
active, in stock, and its category passes the fixed spirit rule — a
case-insensitive keyword match on the category name in variant A, and identity
with the chosen (looked-up) category in variant B. -/
theorem spirit_candidates_iff (products : List Product) (categories : List Category)
    (p : Product) :
    (p ∈ destilados products categories ↔
      p ∈ products ∧ p.comboEligible = true ∧ p.isActive = true ∧ 0 < p.stock ∧
        ∃ c ∈ categories,
          destiladoKeywords.any (fun keyword => lowerIncludes c.name keyword) = true ∧
          c.id = p.categoryId) ∧
    (∀ (selCat : String) (c : Category),
      categories.find? (fun cc => cc.id == selCat) = some c →
      (p ∈ destiladosByCategory products categories (some selCat) ↔
        p ∈ products ∧ p.comboEligible = true ∧ p.isActive = true ∧ 0 < p.stock ∧
          p.categoryId = c.id)) := by
  constructor
  · rw [destilados, List.mem_filter]
    simp only [Bool.and_eq_true, decide_eq_true_eq, mem_destiladosCategoryIds]
    tauto
  · intro selCat c hfind
    simp only [destiladosByCategory, hfind]
    rw [List.mem_filter]
    simp only [Bool.and_eq_true, decide_eq_true_eq, beq_iff_eq]
    tauto

/-- C5 witness: a concrete eligible gin appears in the variant-B candidate list
for its category. -/
theorem spirit_candidates_iff_witness :
    wGin ∈ destiladosByCategory [wGin] [wCatGin] (some "cat-gin") :=
  ((spirit_candidates_iff [wGin] [wCatGin] wGin).2 "cat-gin" wCatGin (by decide)).mpr
    ⟨List.mem_cons_self wGin [], rfl, rfl, by decide, rfl⟩

/-- C6: an energy-keyword product carrying the 2L marker never appears in a
can-pack candidate list (either variant), one without the marker never appears
in the 2L list, and the 2L and can-pack lists are disjoint on every catalog. -/
theorem energetico_lists_disjoint (products : List Product) (p : Product) :
    (isEnergetico p.name = true → lowerIncludes p.name "2l" = true →
      p ∉ energeticosCans products ∧ p ∉ energeticosCansB products) ∧
    (isEnergetico p.name = true → lowerIncludes p.name "2l" = false →
      p ∉ energeticos2L products) ∧
    (p ∈ energeticos2L products →
      p ∉ energeticosCans products ∧ p ∉ energeticosCansB products) := by
  refine ⟨?_, ?_, ?_⟩
  · intro _ h2l
    constructor <;> intro hmem
    · have hb := (List.mem_filter.mp hmem).2
      simp [h2l] at hb
    · have hb := (List.mem_filter.mp hmem).2
      simp [h2l] at hb
  · intro _ h2l
    intro hmem
    have hb := (List.mem_filter.mp hmem).2
    simp [h2l] at hb
  · intro hmem
    have hb := (List.mem_filter.mp hmem).2
    simp only [Bool.and_eq_true] at hb
    have h2l : lowerIncludes p.name "2l" = true := hb.2
    constructor <;> intro hmem2
    · have hb2 := (List.mem_filter.mp hmem2).2
      simp [h2l] at hb2
    · have hb2 := (List.mem_filter.mp hmem2).2
      simp [h2l] at hb2

/-- C6 witness: the concrete 2L energy drink is excluded from both can-pack
candidate lists. -/
theorem energetico_lists_disjoint_witness :
    wEnergetico2L ∉ energeticosCans [wEnergetico2L, wEnergetico] ∧
    wEnergetico2L ∉ energeticosCansB [wEnergetico2L, wEnergetico] :=
  (energetico_lists_disjoint [wEnergetico2L, wEnergetico] wEnergetico2L).1
    (by decide) (by decide)

/-- C8: variant A's ice list admits a product iff it is combo-eligible, active,
named with the ice keyword, and passes the size-dependent stock gate (stock ≥ 1
for a large bag, stock ≥ 5 — the implied slot count — otherwise); and variant
B's per-slot picker excludes crushed/premium ice grades outright, whatever the
product's other fields. -/
theorem ice_candidates (products : List Product) (p : Product) :
    (p ∈ gelos products ↔
      p ∈ products ∧ p.comboEligible = true ∧ p.isActive = true ∧
        lowerIncludes p.name "gelo" = true ∧
        (if isLargeIceBag p.name then 1 ≤ p.stock else 5 ≤ p.stock)) ∧
    ((lowerIncludes p.name "triturado" = true ∨ lowerIncludes p.name "premium" = true) →
      p ∉ gelosAvailable products ∧
      ∀ (slots : List (Option Product)) (i : Nat),
        p ∉ getAvailableGelosForSlot (gelosAvailable products) slots i) := by
  constructor
  · rw [gelos, List.mem_filter]
    simp only [Bool.and_eq_true, decide_eq_true_eq]
    by_cases hbag : isLargeIceBag p.name <;> simp [hbag] <;> tauto
  · intro hmark
    have hnot : p ∉ gelosAvailable products := by
      intro hmem
      have hb := (List.mem_filter.mp hmem).2
      rcases hmark with hm | hm <;> simp [hm] at hb
    refine ⟨hnot, ?_⟩
    intro slots i hmem
    exact hnot (List.mem_filter.mp hmem).1

/-- C8 witness: crushed ice is excluded from the per-slot picker even though it
is combo-eligible, active and in stock. -/
theorem ice_candidates_witness :
    wGeloTriturado ∉ gelosAvailable [wGeloTriturado, wGelo1] ∧
    wGeloTriturado ∉
      getAvailableGelosForSlot (gelosAvailable [wGeloTriturado, wGelo1])
        (List.replicate ICE_COUNT none) 0 :=
  ⟨((ice_candidates [wGeloTriturado, wGelo1] wGeloTriturado).2 (Or.inl (by decide))).1,
   ((ice_candidates [wGeloTriturado, wGelo1] wGeloTriturado).2 (Or.inl (by decide))).2
     (List.replicate ICE_COUNT none) 0⟩

/-- Reading a set list: either we hit the written index, or the old entry. -/
theorem set_getElem?_cases {l : List (Option Product)} {k j : Nat} {v w : Option Product}
    (h : (l.set k v)[j]? = some w) : (k = j ∧ w = v) ∨ (k ≠ j ∧ l[j]? = some w) := by
  rw [List.getElem?_set] at h
  by_cases hkj : k = j
  · rw [if_pos hkj] at h
    by_cases hlt : k < l.length
    · rw [if_pos hlt] at h
      exact Or.inl ⟨hkj, (Option.some_inj.mp h).symm⟩
    · rw [if_neg hlt] at h
      exact absurd h (by simp)
  · rw [if_neg hkj] at h
    exact Or.inr ⟨hkj, h⟩

/-- A product filled in a slot other than `k` contributes its id to the
exclusion list computed inside `getAvailableGelosForSlot`. -/
theorem mem_otherSlotIds {slots : List (Option Product)} {k j : Nat} {q : Product}
    (hj : j ≠ k) (hq : slots[j]? = some (some q)) :
    q.id ∈ ((slots.enum.filter (fun gi => gi.2.isSome && gi.1 != k)).filterMap
      (fun gi => gi.2)).map (fun g => g.id) := by
  refine List.mem_map.mpr ⟨q, ?_, rfl⟩
  refine List.mem_filterMap.mpr ⟨(j, some q), ?_, rfl⟩
  refine List.mem_filter.mpr ⟨?_, ?_⟩
  · exact List.mk_mem_enum_iff_getElem?.mpr hq
  · simp [hj]

/-- A slot candidate never shares its id with a product filled in another slot. -/
theorem getAvailable_id_ne {avail : List Product} {slots : List (Option Product)}
    {k : Nat} {p : Product} (hp : p ∈ getAvailableGelosForSlot avail slots k)
    {j : Nat} {q : Product} (hj : j ≠ k) (hq : slots[j]? = some (some q)) :
    p.id ≠ q.id := by
  intro heq
  have hb := (List.mem_filter.mp hp).2
  have hqid := mem_otherSlotIds hj hq
  rw [← heq] at hqid
  rw [contains_eq_true_iff.mpr hqid] at hb
  simp at hb

/-- Selecting a slot candidate into its slot preserves the no-duplicate invariant. -/
theorem noDupFilled_set_some {avail : List Product} {slots : List (Option Product)}
    {k : Nat} {p : Product} (hinv : noDupFilled slots)
    (hp : p ∈ getAvailableGelosForSlot avail slots k) :
    noDupFilled (handleSelectGelo slots k (some p)) := by
  intro i j a b hij hi hj
  unfold handleSelectGelo at hi hj
  rcases set_getElem?_cases hi with ⟨hik, ha⟩ | ⟨hik, hi2⟩ <;>
    rcases set_getElem?_cases hj with ⟨hjk, hb⟩ | ⟨hjk, hj2⟩
  · exact absurd (hik.symm.trans hjk) hij
  · have ha2 : a = p := Option.some_inj.mp ha
    subst ha2
    exact getAvailable_id_ne hp (fun hjeq => hjk hjeq.symm) hj2
  · have hb2 : b = p := Option.some_inj.mp hb
    subst hb2
    exact (getAvailable_id_ne hp (fun hieq => hik hieq.symm) hi2).symm
  · exact hinv i j a b hij hi2 hj2

/-- Clearing a slot preserves the no-duplicate invariant. -/
theorem noDupFilled_set_none {slots : List (Option Product)} {k : Nat}
    (hinv : noDupFilled slots) : noDupFilled (handleSelectGelo slots k none) := by
  intro i j a b hij hi hj
  unfold handleSelectGelo at hi hj
  rcases set_getElem?_cases hi with ⟨hik, ha⟩ | ⟨hik, hi2⟩
  · exact absurd ha (by simp)
  rcases set_getElem?_cases hj with ⟨hjk, hb⟩ | ⟨hjk, hj2⟩
  · exact absurd hb (by simp)
  exact hinv i j a b hij hi2 hj2

/-- The all-empty slot state satisfies the invariant. -/
theorem noDupFilled_replicate_none (n : Nat) :
    noDupFilled (List.replicate n (none : Option Product)) := by
  intro i j a b hij hi hj
  rw [List.getElem?_replicate] at hi
  by_cases hin : i < n
  · rw [if_pos hin] at hi
    exact absurd (Option.some_inj.mp hi) (by simp)
  · rw [if_neg hin] at hi
    exact absurd hi (by simp)

/-- C2: starting from the empty four-slot state, after any finite sequence of
slot interactions in which every selected product is drawn from the candidate
list offered for that slot, no two filled ice slots hold the same product
identifier. -/
theorem ice_slots_no_duplicates (avail : List Product)
    (slots : List (Option Product))
    (h : Relation.ReflTransGen (GeloStep avail) (List.replicate ICE_COUNT none) slots) :
    noDupFilled slots := by
  induction h with
  | refl => exact noDupFilled_replicate_none ICE_COUNT
  | tail hsteps hstep ih =>
    cases hstep with
    | clear i => exact noDupFilled_set_none ih
    | select i p hp => exact noDupFilled_set_some ih hp

/-- C2 witness: two concrete selections, each drawn from its slot's offered
candidate list, leave the four slots without duplicate identifiers. -/
theorem ice_slots_no_duplicates_witness :
    noDupFilled [some wGelo1, some wGelo2, none, none] :=
  ice_slots_no_duplicates [wGelo1, wGelo2] [some wGelo1, some wGelo2, none, none]
    (Relation.ReflTransGen.tail
      (Relation.ReflTransGen.tail Relation.ReflTransGen.refl
        (GeloStep.select (List.replicate ICE_COUNT none) 0 wGelo1 (by decide)))
      (GeloStep.select [some wGelo1, none, none, none] 1 wGelo2 (by decide)))

end VibeDrinks
